import Mathlib

/-!
Verification of the frame-translation core of `slcan-bridge` (src/src/lib.rs).

The repository's own code is the five functions `bxcan_to_vec`,
`bxcan_to_canserial_id`, `bxcan_to_canserial`, `canserial_to_bxcan_id` and
`canserial_to_bxcan`.  The frame and identifier types they operate on come
from external crates (`bxcan`, `embedded-hal`, `slcan-parser`) that are not
part of this repository; those types are modelled here through the accessors
and constructors the repository code uses, following the contracts stated in
the design specification (identifier ranges, length/payload validation,
ASCII line grammar).
-/

namespace hal

/-- Standard 11-bit CAN identifier of the `embedded_hal::can` API.
`new` range-checks; `as_raw` exposes the numeric value. -/
structure StandardId where
  raw : Nat
deriving DecidableEq, Repr

/-- Extended 29-bit CAN identifier of the `embedded_hal::can` API. -/
structure ExtendedId where
  raw : Nat
deriving DecidableEq, Repr

/-- Modelled from the spec: constructing a Standard identifier fails for any
value above `0x7FF` (identifier range rejection). -/
def StandardId.new (r : Nat) : Option StandardId :=
  if r ≤ 0x7FF then some ⟨r⟩ else none

/-- Modelled from the spec: constructing an Extended identifier fails for any
value above `0x1FFFFFFF`. -/
def ExtendedId.new (r : Nat) : Option ExtendedId :=
  if r ≤ 0x1FFFFFFF then some ⟨r⟩ else none

def StandardId.as_raw (s : StandardId) : Nat := s.raw

def ExtendedId.as_raw (e : ExtendedId) : Nat := e.raw

/-- `embedded_hal::can::Id`: tagged union of the two identifier widths. -/
inductive Id where
  | Standard (s : StandardId)
  | Extended (e : ExtendedId)
deriving DecidableEq, Repr

/-- Tag of an identifier: `true` for Standard, `false` for Extended. -/
def Id.isStandard : Id → Bool
  | .Standard _ => true
  | .Extended _ => false

/-- Numeric value carried by an identifier. -/
def Id.rawVal : Id → Nat
  | .Standard s => s.raw
  | .Extended e => e.raw

/-- The identifier's numeric value fits the bit width of its tag (the
invariant that safe construction establishes). -/
def Id.inRange : Id → Bool
  | .Standard s => decide (s.raw ≤ 0x7FF)
  | .Extended e => decide (e.raw ≤ 0x1FFFFFFF)

end hal

namespace bxcan

/-- `bxcan::StandardId`, the driver-side 11-bit identifier. -/
structure StandardId where
  raw : Nat
deriving DecidableEq, Repr

/-- `bxcan::ExtendedId`, the driver-side 29-bit identifier. -/
structure ExtendedId where
  raw : Nat
deriving DecidableEq, Repr

/-- Modelled from the spec: same legal range as the protocol side (11 bits). -/
def StandardId.new (r : Nat) : Option StandardId :=
  if r ≤ 0x7FF then some ⟨r⟩ else none

/-- Modelled from the spec: same legal range as the protocol side (29 bits). -/
def ExtendedId.new (r : Nat) : Option ExtendedId :=
  if r ≤ 0x1FFFFFFF then some ⟨r⟩ else none

def StandardId.as_raw (s : StandardId) : Nat := s.raw

def ExtendedId.as_raw (e : ExtendedId) : Nat := e.raw

/-- `bxcan::Id`: tagged union of the two identifier widths. -/
inductive Id where
  | Standard (s : StandardId)
  | Extended (e : ExtendedId)
deriving DecidableEq, Repr

def Id.isStandard : Id → Bool
  | .Standard _ => true
  | .Extended _ => false

def Id.rawVal : Id → Nat
  | .Standard s => s.raw
  | .Extended e => e.raw

def Id.inRange : Id → Bool
  | .Standard s => decide (s.raw ≤ 0x7FF)
  | .Extended e => decide (e.raw ≤ 0x1FFFFFFF)

/-- `bxcan::Data`: the fixed-capacity (8 byte) payload buffer of a driver
data frame.  Bytes are modelled as naturals below 256. -/
structure Data where
  bytes : List Nat
deriving DecidableEq, Repr

/-- Modelled from the spec: `bxcan::Data::new` packs a slice into the
fixed-capacity payload buffer and fails when the slice exceeds 8 bytes. -/
def Data.new (d : List Nat) : Option Data :=
  if d.length ≤ 8 then some ⟨d⟩ else none

/-- `bxcan::Data::len`: number of payload bytes held. -/
def Data.len (d : Data) : Nat := d.bytes.length

/-- Slice indexing `d.get(lo..hi)`: `some` sub-slice when the range is within
bounds, `none` otherwise. -/
def Data.getRange (d : Data) (lo hi : Nat) : Option (List Nat) :=
  if lo ≤ hi ∧ hi ≤ d.bytes.length then some ((d.bytes.drop lo).take (hi - lo))
  else none

/-- `bxcan::Frame`, the driver-side frame, modelled through the accessors the
repository code uses: identifier, remote flag, data-length code, and the
optional payload object returned by `data()`. -/
structure Frame where
  fid : Id
  remote : Bool
  fdlc : Nat
  fdata : Option Data
deriving DecidableEq, Repr

/-- Accessor `bxcan::Frame::is_remote_frame`. -/
def Frame.is_remote_frame (f : Frame) : Bool := f.remote

/-- Accessor `bxcan::Frame::id`. -/
def Frame.id (f : Frame) : Id := f.fid

/-- Accessor `bxcan::Frame::dlc`. -/
def Frame.dlc (f : Frame) : Nat := f.fdlc

/-- Accessor `bxcan::Frame::data`: the payload object for data frames,
absent for remote frames. -/
def Frame.data (f : Frame) : Option Data := f.fdata

/-- Modelled from the spec: `bxcan::Frame::new_data` builds a data frame
whose data-length code is the payload length. -/
def Frame.new_data (i : Id) (d : Data) : Frame :=
  { fid := i, remote := false, fdlc := d.len, fdata := some d }

/-- Modelled from the spec: `bxcan::Frame::new_remote` builds a remote frame
carrying the identifier and the requested length, with no payload object. -/
def Frame.new_remote (i : Id) (dlc : Nat) : Frame :=
  { fid := i, remote := true, fdlc := dlc, fdata := none }

end bxcan

/-- `slcan_parser::CanserialFrame`, the protocol-side frame, modelled from
the spec: identifier, kind flag, data-length code 0..=8 and payload bytes
(empty for remote frames).  Construction validates length and payload. -/
structure CanserialFrame where
  remote : Bool
  cid : hal.Id
  cdlc : Nat
  cdata : List Nat
deriving DecidableEq, Repr

namespace CanserialFrame

/-- Accessor `CanserialFrame::is_remote_frame`. -/
def is_remote_frame (f : CanserialFrame) : Bool := f.remote

/-- Accessor `CanserialFrame::id`. -/
def id (f : CanserialFrame) : hal.Id := f.cid

/-- Accessor `CanserialFrame::dlc`. -/
def dlc (f : CanserialFrame) : Nat := f.cdlc

/-- Accessor `CanserialFrame::data`: payload byte slice. -/
def data (f : CanserialFrame) : List Nat := f.cdata

/-- Modelled from the spec: protocol-side remote-frame constructor; carries
only identifier and requested length, and validates the length code 0..=8. -/
def new_remote (i : hal.Id) (d : Nat) : Option CanserialFrame :=
  if d ≤ 8 then some { remote := true, cid := i, cdlc := d, cdata := [] }
  else none

/-- Modelled from the spec: protocol-side data-frame constructor; the length
code is the payload length, validated to be at most 8. -/
def new_frame (i : hal.Id) (d : List Nat) : Option CanserialFrame :=
  if d.length ≤ 8 then
    some { remote := false, cid := i, cdlc := d.length, cdata := d }
  else none

/-- The invariant that the protocol-side constructors establish: length code
0..=8, remote frames carry no payload, data frames have matching length. -/
def wf (f : CanserialFrame) : Prop :=
  f.cdlc ≤ 8 ∧ f.cdata.length ≤ 8 ∧
    (f.remote = true → f.cdata = []) ∧
    (f.remote = false → f.cdlc = f.cdata.length)

end CanserialFrame

/-- ASCII code of a hexadecimal digit (lowercase letters). -/
def hexChar (n : Nat) : Nat := if n < 10 then 48 + n else 87 + n

/-- Fixed-width, zero-padded hexadecimal rendering, most significant digit
first. -/
def hexPadded : Nat → Nat → List Nat
  | 0, _ => []
  | w + 1, n => hexPadded w (n / 16) ++ [hexChar (n % 16)]

/-- Modelled from the spec: the `Display` rendering of a `CanserialFrame`
(supplied by the external `slcan-parser` crate).  Grammar: one marker letter
(lowercase = standard id, uppercase = extended id; `t`/`T` data, `r`/`R`
remote), the identifier zero-padded to 3 (standard) or 8 (extended) hex
digits, one hex digit of length code, and for data frames two hex digits per
payload byte. -/
def CanserialFrame.render (f : CanserialFrame) : List Nat :=
  match f.remote, f.cid with
  | false, hal.Id.Standard s =>
      116 :: (hexPadded 3 s.raw ++ hexPadded 1 f.cdlc
        ++ f.cdata.flatMap (fun b => hexPadded 2 b))
  | false, hal.Id.Extended e =>
      84 :: (hexPadded 8 e.raw ++ hexPadded 1 f.cdlc
        ++ f.cdata.flatMap (fun b => hexPadded 2 b))
  | true, hal.Id.Standard s =>
      114 :: (hexPadded 3 s.raw ++ hexPadded 1 f.cdlc)
  | true, hal.Id.Extended e =>
      82 :: (hexPadded 8 e.raw ++ hexPadded 1 f.cdlc)

/-- The formatting write into a fixed-capacity buffer (`heapless::Vec<u8, N>`
via `core::write!`): the written buffer together with a success flag; on
overflow the buffer is truncated at capacity and the write reports failure. -/
def write_to_vec (cap : Nat) (content : List Nat) : List Nat × Bool :=
  if content.length ≤ cap then (content, true) else (content.take cap, false)

/-- `bxcan_to_canserial_id` from src/src/lib.rs: convert `bxcan::Id` to the
`embedded_hal` `Id`. -/
def bxcan_to_canserial_id : bxcan.Id → Option hal.Id
  | bxcan.Id.Standard stdid =>
    match hal.StandardId.new stdid.as_raw with
    | some i => some (hal.Id.Standard i)
    | none => none
  | bxcan.Id.Extended extid =>
    match hal.ExtendedId.new extid.as_raw with
    | some i => some (hal.Id.Extended i)
    | none => none

/-- `bxcan_to_canserial` from src/src/lib.rs: convert a driver frame to a
protocol frame. -/
def bxcan_to_canserial (bcanframe : bxcan.Frame) : Option CanserialFrame :=
  match bcanframe.is_remote_frame with
  | true =>
    match bxcan_to_canserial_id bcanframe.id with
    | some i => CanserialFrame.new_remote i bcanframe.dlc
    | none => none
  | false =>
    match bcanframe.data with
    | some d =>
      match bxcan_to_canserial_id bcanframe.id with
      | some i =>
        match d.getRange 0 d.len with
        | some s => CanserialFrame.new_frame i s
        | none => none
      | none => none
    | none =>
      match bxcan_to_canserial_id bcanframe.id with
      | some i => CanserialFrame.new_frame i []
      | none => none

/-- `bxcan_to_vec` from src/src/lib.rs: translate the driver frame and render
the protocol frame followed by a carriage return into a capacity-32 buffer,
discarding the write's error result (`.ok()`). -/
def bxcan_to_vec (bxcan_frame : bxcan.Frame) : Option (List Nat) :=
  match bxcan_to_canserial bxcan_frame with
  | none => none
  | some frame => some (write_to_vec 32 (frame.render ++ [13])).1

/-- `canserial_to_bxcan_id` from src/src/lib.rs: convert the `embedded_hal`
`Id` to `bxcan::Id`. -/
def canserial_to_bxcan_id : hal.Id → Option bxcan.Id
  | hal.Id.Standard stdid =>
    match bxcan.StandardId.new stdid.as_raw with
    | some i => some (bxcan.Id.Standard i)
    | none => none
  | hal.Id.Extended extid =>
    match bxcan.ExtendedId.new extid.as_raw with
    | some i => some (bxcan.Id.Extended i)
    | none => none

/-- `canserial_to_bxcan` from src/src/lib.rs: convert a protocol frame to a
driver frame.  The length code is cast to `u8` (`as u8`, i.e. modulo 256). -/
def canserial_to_bxcan (slcan : CanserialFrame) : Option bxcan.Frame :=
  match slcan.is_remote_frame with
  | true =>
    match canserial_to_bxcan_id slcan.id with
    | some i => some (bxcan.Frame.new_remote i (slcan.dlc % 256))
    | none => none
  | false =>
    match canserial_to_bxcan_id slcan.id with
    | some i =>
      match bxcan.Data.new slcan.data with
      | some d => some (bxcan.Frame.new_data i d)
      | none => none
    | none => none

theorem hexPadded_length (w n : Nat) : (hexPadded w n).length = w := by
  induction w generalizing n with
  | zero => rfl
  | succ w ih => simp [hexPadded, ih]

theorem flatMap_hexPadded_length (l : List Nat) :
    (l.flatMap fun b => hexPadded 2 b).length = 2 * l.length := by
  induction l with
  | nil => rfl
  | cons a t ih =>
    simp only [List.flatMap_cons, List.length_append, List.length_cons,
      hexPadded_length, ih]
    omega

theorem render_length_le (f : CanserialFrame) (h : f.cdata.length ≤ 8) :
    f.render.length ≤ 26 := by
  obtain ⟨rem, i, dlc, p⟩ := f
  simp only at h
  cases rem <;> cases i <;>
    simp only [CanserialFrame.render, List.length_cons, List.length_append,
      hexPadded_length, flatMap_hexPadded_length] <;>
    omega

theorem bxcan_to_canserial_datalen (b : bxcan.Frame) (f : CanserialFrame)
    (h : bxcan_to_canserial b = some f) : f.cdata.length ≤ 8 := by
  unfold bxcan_to_canserial CanserialFrame.new_remote CanserialFrame.new_frame at h
  repeat' split at h
  all_goals first
    | (injection h with h; subst h; simp_all)
    | injection h

theorem getLast?_append_singleton {α : Type} (l : List α) (a : α) :
    (l ++ [a]).getLast? = some a := by
  rw [List.getLast?_append_cons]
  rfl

theorem bxcan_to_canserial_id_std (r : Nat) (h : r ≤ 0x7FF) :
    bxcan_to_canserial_id (bxcan.Id.Standard ⟨r⟩)
      = some (hal.Id.Standard ⟨r⟩) := by
  simp [bxcan_to_canserial_id, hal.StandardId.new, bxcan.StandardId.as_raw, h]

theorem bxcan_to_canserial_id_ext (r : Nat) (h : r ≤ 0x1FFFFFFF) :
    bxcan_to_canserial_id (bxcan.Id.Extended ⟨r⟩)
      = some (hal.Id.Extended ⟨r⟩) := by
  simp [bxcan_to_canserial_id, hal.ExtendedId.new, bxcan.ExtendedId.as_raw, h]

theorem canserial_to_bxcan_id_std (r : Nat) (h : r ≤ 0x7FF) :
    canserial_to_bxcan_id (hal.Id.Standard ⟨r⟩)
      = some (bxcan.Id.Standard ⟨r⟩) := by
  simp [canserial_to_bxcan_id, bxcan.StandardId.new, hal.StandardId.as_raw, h]

theorem canserial_to_bxcan_id_ext (r : Nat) (h : r ≤ 0x1FFFFFFF) :
    canserial_to_bxcan_id (hal.Id.Extended ⟨r⟩)
      = some (bxcan.Id.Extended ⟨r⟩) := by
  simp [canserial_to_bxcan_id, bxcan.ExtendedId.new, hal.ExtendedId.as_raw, h]

/-- Claim C1: round-trip identity for data frames.  Every valid protocol-side
data frame (identifier in range, length 0..=8 equal to the payload length)
converts to the driver representation and back, preserving the identifier,
the length, and every payload byte. -/
theorem c1_roundtrip_data_frames (f : CanserialFrame)
    (hrem : f.is_remote_frame = false) (hid : f.id.inRange = true)
    (hdlc : f.dlc = f.data.length) (hlen : f.data.length ≤ 8) :
    ∃ b f', canserial_to_bxcan f = some b ∧ bxcan_to_canserial b = some f' ∧
      f'.id = f.id ∧ f'.dlc = f.dlc ∧ f'.data = f.data ∧
      ∀ i, i < f.data.length → f'.data.getD i 0 = f.data.getD i 0 := by
  obtain ⟨rem, cid, cdlc, p⟩ := f
  simp only [CanserialFrame.is_remote_frame] at hrem
  simp only [CanserialFrame.dlc, CanserialFrame.data] at hdlc hlen
  subst hrem
  cases cid with
  | Standard s =>
    obtain ⟨r⟩ := s
    simp only [CanserialFrame.id, hal.Id.inRange, decide_eq_true_eq] at hid
    refine ⟨bxcan.Frame.new_data (bxcan.Id.Standard ⟨r⟩) ⟨p⟩,
      ⟨false, hal.Id.Standard ⟨r⟩, p.length, p⟩, ?_, ?_, rfl, ?_, rfl, ?_⟩
    · simp [canserial_to_bxcan, CanserialFrame.is_remote_frame, CanserialFrame.id,
        CanserialFrame.data, canserial_to_bxcan_id_std r hid, bxcan.Data.new, hlen]
    · simp [bxcan_to_canserial, bxcan.Frame.is_remote_frame, bxcan.Frame.new_data,
        bxcan.Frame.data, bxcan.Frame.id, bxcan_to_canserial_id_std r hid,
        bxcan.Data.getRange, bxcan.Data.len, CanserialFrame.new_frame, hlen]
    · exact hdlc.symm
    · intro i hi
      rfl
  | Extended e =>
    obtain ⟨r⟩ := e
    simp only [CanserialFrame.id, hal.Id.inRange, decide_eq_true_eq] at hid
    refine ⟨bxcan.Frame.new_data (bxcan.Id.Extended ⟨r⟩) ⟨p⟩,
      ⟨false, hal.Id.Extended ⟨r⟩, p.length, p⟩, ?_, ?_, rfl, ?_, rfl, ?_⟩
    · simp [canserial_to_bxcan, CanserialFrame.is_remote_frame, CanserialFrame.id,
        CanserialFrame.data, canserial_to_bxcan_id_ext r hid, bxcan.Data.new, hlen]
    · simp [bxcan_to_canserial, bxcan.Frame.is_remote_frame, bxcan.Frame.new_data,
        bxcan.Frame.data, bxcan.Frame.id, bxcan_to_canserial_id_ext r hid,
        bxcan.Data.getRange, bxcan.Data.len, CanserialFrame.new_frame, hlen]
    · exact hdlc.symm
    · intro i hi
      rfl

/-- Claim C1 witness: the standard data frame of the repository's unit test
(identifier 0x1, payload 1..8) round-trips. -/
theorem c1_witness :
    ∃ b f',
      canserial_to_bxcan ⟨false, hal.Id.Standard ⟨1⟩, 8, [1, 2, 3, 4, 5, 6, 7, 8]⟩
        = some b ∧
      bxcan_to_canserial b = some f' ∧
      f'.id = (⟨false, hal.Id.Standard ⟨1⟩, 8,
        [1, 2, 3, 4, 5, 6, 7, 8]⟩ : CanserialFrame).id ∧
      f'.dlc = (⟨false, hal.Id.Standard ⟨1⟩, 8,
        [1, 2, 3, 4, 5, 6, 7, 8]⟩ : CanserialFrame).dlc ∧
      f'.data = (⟨false, hal.Id.Standard ⟨1⟩, 8,
        [1, 2, 3, 4, 5, 6, 7, 8]⟩ : CanserialFrame).data ∧
      ∀ i, i < (⟨false, hal.Id.Standard ⟨1⟩, 8,
          [1, 2, 3, 4, 5, 6, 7, 8]⟩ : CanserialFrame).data.length →
        f'.data.getD i 0 = (⟨false, hal.Id.Standard ⟨1⟩, 8,
          [1, 2, 3, 4, 5, 6, 7, 8]⟩ : CanserialFrame).data.getD i 0 :=
  c1_roundtrip_data_frames _ rfl (by decide) (by decide) (by decide)

/-- Claim C2 counterexample: an extended-id data frame with 8 payload bytes
renders, terminator included, to 27 bytes, exceeding the claimed 26. -/
theorem c2_counterexample :
    bxcan_to_vec ⟨bxcan.Id.Extended ⟨0⟩, false, 8, some ⟨[1, 2, 3, 4, 5, 6, 7, 8]⟩⟩
      = some [84, 48, 48, 48, 48, 48, 48, 48, 48, 56, 48, 49, 48, 50, 48, 51,
          48, 52, 48, 53, 48, 54, 48, 55, 48, 56, 13] ∧
    ¬ ([84, 48, 48, 48, 48, 48, 48, 48, 48, 56, 48, 49, 48, 50, 48, 51,
          48, 52, 48, 53, 48, 54, 48, 55, 48, 56, 13] : List Nat).length ≤ 26 := by
  decide

/-- Claim C2 (amended): the buffer produced by `bxcan_to_vec`, terminator
included, never exceeds 27 bytes (26 bytes of content plus the carriage
return), and its last byte is always 0x0D. -/
theorem c2_encoding_length_bound (b : bxcan.Frame) (v : List Nat)
    (h : bxcan_to_vec b = some v) :
    v.length ≤ 27 ∧ v.getLast? = some 13 := by
  unfold bxcan_to_vec at h
  cases hc : bxcan_to_canserial b with
  | none =>
    rw [hc] at h
    exact absurd h (by simp)
  | some f =>
    rw [hc] at h
    have h8 := bxcan_to_canserial_datalen b f hc
    have hr := render_length_le f h8
    have hlen : (f.render ++ [13]).length ≤ 32 := by
      simp only [List.length_append, List.length_cons, List.length_nil]
      omega
    simp only [write_to_vec, if_pos hlen] at h
    injection h with h
    subst h
    constructor
    · simp only [List.length_append, List.length_cons, List.length_nil]
      omega
    · exact getLast?_append_singleton f.render 13

/-- Claim C2 witness: a remote standard frame renders to a 6-byte buffer
ending in 0x0D. -/
theorem c2_witness :
    ([114, 48, 48, 49, 48, 13] : List Nat).length ≤ 27 ∧
      ([114, 48, 48, 49, 48, 13] : List Nat).getLast? = some 13 :=
  c2_encoding_length_bound ⟨bxcan.Id.Standard ⟨1⟩, true, 0, none⟩ _ (by decide)

/-- Claim C3: for a frame whose translation succeeds, `bxcan_to_vec` returns
`none` exactly when the rendering write reports failure; both sides are in
fact always false, because the rendered content (at most 27 bytes) fits the
capacity-32 buffer. -/
theorem c3_rendering_failure_policy (b : bxcan.Frame) (f : CanserialFrame)
    (h : bxcan_to_canserial b = some f) :
    (bxcan_to_vec b = none ↔ (write_to_vec 32 (f.render ++ [13])).2 = false) := by
  have h8 := bxcan_to_canserial_datalen b f h
  have hr := render_length_le f h8
  have hlen : (f.render ++ [13]).length ≤ 32 := by
    simp only [List.length_append, List.length_cons, List.length_nil]
    omega
  apply iff_of_false
  · simp [bxcan_to_vec, h]
  · rw [write_to_vec, if_pos hlen]
    simp

/-- Claim C3 witness: instantiation at a remote standard frame. -/
theorem c3_witness :
    (bxcan_to_vec ⟨bxcan.Id.Standard ⟨1⟩, true, 0, none⟩ = none ↔
      (write_to_vec 32
        ((⟨true, hal.Id.Standard ⟨1⟩, 0, []⟩ : CanserialFrame).render ++ [13])).2
        = false) :=
  c3_rendering_failure_policy ⟨bxcan.Id.Standard ⟨1⟩, true, 0, none⟩
    ⟨true, hal.Id.Standard ⟨1⟩, 0, []⟩ (by decide)

/-- Claim C4: a driver-side data frame with length code 0 and no payload
object converts to a protocol data frame with an empty payload (not a remote
frame, not a failure), provided the identifier converts. -/
theorem c4_empty_payload_preserved (b : bxcan.Frame) (i : hal.Id)
    (hrem : b.is_remote_frame = false) (_hdlc : b.dlc = 0)
    (hdata : b.data = none) (hid : bxcan_to_canserial_id b.id = some i) :
    bxcan_to_canserial b = some ⟨false, i, 0, []⟩ := by
  simp [bxcan_to_canserial, hrem, hdata, hid, CanserialFrame.new_frame]

/-- Claim C4 witness: a concrete empty data frame is preserved. -/
theorem c4_witness :
    bxcan_to_canserial ⟨bxcan.Id.Standard ⟨2⟩, false, 0, none⟩
      = some ⟨false, hal.Id.Standard ⟨2⟩, 0, []⟩ :=
  c4_empty_payload_preserved ⟨bxcan.Id.Standard ⟨2⟩, false, 0, none⟩
    (hal.Id.Standard ⟨2⟩) rfl rfl rfl (by decide)

/-- Claim C5: round-trip identity for remote frames.  Every valid
protocol-side remote frame (identifier in range, length 0..=8, no payload)
converts to the driver representation and back, preserving identifier and
length, with the payload absent on both sides. -/
theorem c5_roundtrip_remote_frames (f : CanserialFrame)
    (hrem : f.is_remote_frame = true) (hid : f.id.inRange = true)
    (hdlc : f.dlc ≤ 8) (hdata : f.data = []) :
    ∃ b f', canserial_to_bxcan f = some b ∧ b.data = none ∧
      bxcan_to_canserial b = some f' ∧ f'.id = f.id ∧ f'.dlc = f.dlc ∧
      f'.is_remote_frame = true ∧ f'.data = [] := by
  obtain ⟨rem, cid, cdlc, p⟩ := f
  simp only [CanserialFrame.is_remote_frame] at hrem
  simp only [CanserialFrame.dlc] at hdlc
  simp only [CanserialFrame.data] at hdata
  subst hrem
  subst hdata
  have hmod : cdlc % 256 = cdlc := Nat.mod_eq_of_lt (by omega)
  cases cid with
  | Standard s =>
    obtain ⟨r⟩ := s
    simp only [CanserialFrame.id, hal.Id.inRange, decide_eq_true_eq] at hid
    refine ⟨bxcan.Frame.new_remote (bxcan.Id.Standard ⟨r⟩) (cdlc % 256),
      ⟨true, hal.Id.Standard ⟨r⟩, cdlc, []⟩, ?_, rfl, ?_, rfl, rfl, rfl, rfl⟩
    · simp [canserial_to_bxcan, CanserialFrame.is_remote_frame, CanserialFrame.id,
        CanserialFrame.dlc, canserial_to_bxcan_id_std r hid]
    · simp [bxcan_to_canserial, bxcan.Frame.is_remote_frame, bxcan.Frame.new_remote,
        bxcan.Frame.id, bxcan.Frame.dlc, bxcan_to_canserial_id_std r hid,
        CanserialFrame.new_remote, hmod, hdlc]
  | Extended e =>
    obtain ⟨r⟩ := e
    simp only [CanserialFrame.id, hal.Id.inRange, decide_eq_true_eq] at hid
    refine ⟨bxcan.Frame.new_remote (bxcan.Id.Extended ⟨r⟩) (cdlc % 256),
      ⟨true, hal.Id.Extended ⟨r⟩, cdlc, []⟩, ?_, rfl, ?_, rfl, rfl, rfl, rfl⟩
    · simp [canserial_to_bxcan, CanserialFrame.is_remote_frame, CanserialFrame.id,
        CanserialFrame.dlc, canserial_to_bxcan_id_ext r hid]
    · simp [bxcan_to_canserial, bxcan.Frame.is_remote_frame, bxcan.Frame.new_remote,
        bxcan.Frame.id, bxcan.Frame.dlc, bxcan_to_canserial_id_ext r hid,
        CanserialFrame.new_remote, hmod, hdlc]

/-- Claim C5 witness: the extended remote frame of the spec's scenario
(identifier 0x1ABCDE, requested length 4) round-trips. -/
theorem c5_witness :
    ∃ b f',
      canserial_to_bxcan ⟨true, hal.Id.Extended ⟨0x1ABCDE⟩, 4, []⟩ = some b ∧
      b.data = none ∧ bxcan_to_canserial b = some f' ∧
      f'.id = (⟨true, hal.Id.Extended ⟨0x1ABCDE⟩, 4, []⟩ : CanserialFrame).id ∧
      f'.dlc = (⟨true, hal.Id.Extended ⟨0x1ABCDE⟩, 4, []⟩ : CanserialFrame).dlc ∧
      f'.is_remote_frame = true ∧ f'.data = [] :=
  c5_roundtrip_remote_frames _ rfl (by decide) (by decide) rfl

/-- Claim C6: both identifier conversions preserve the tag and the numeric
value without modification, and return `none` exactly when the numeric value
is out of range for its bit width (above 0x7FF for Standard, above
0x1FFFFFFF for Extended). -/
theorem c6_id_conversion_correct (bi : bxcan.Id) (hi : hal.Id) :
    ((bxcan_to_canserial_id bi = none ↔
        ¬ bi.rawVal ≤ (if bi.isStandard = true then 0x7FF else 0x1FFFFFFF)) ∧
      ∀ i, bxcan_to_canserial_id bi = some i →
        i.isStandard = bi.isStandard ∧ i.rawVal = bi.rawVal) ∧
    ((canserial_to_bxcan_id hi = none ↔
        ¬ hi.rawVal ≤ (if hi.isStandard = true then 0x7FF else 0x1FFFFFFF)) ∧
      ∀ i, canserial_to_bxcan_id hi = some i →
        i.isStandard = hi.isStandard ∧ i.rawVal = hi.rawVal) := by
  refine ⟨⟨?_, ?_⟩, ?_, ?_⟩
  · cases bi with
    | Standard s =>
      by_cases hr : s.raw ≤ 0x7FF <;>
        simp [bxcan_to_canserial_id, hal.StandardId.new, bxcan.StandardId.as_raw,
          bxcan.Id.rawVal, bxcan.Id.isStandard, hr]
    | Extended e =>
      by_cases hr : e.raw ≤ 0x1FFFFFFF <;>
        simp [bxcan_to_canserial_id, hal.ExtendedId.new, bxcan.ExtendedId.as_raw,
          bxcan.Id.rawVal, bxcan.Id.isStandard, hr]
  · intro i hsome
    cases bi with
    | Standard s =>
      by_cases hr : s.raw ≤ 0x7FF
      · simp only [bxcan_to_canserial_id, hal.StandardId.new,
          bxcan.StandardId.as_raw, if_pos hr] at hsome
        injection hsome with hsome
        subst hsome
        simp [hal.Id.isStandard, bxcan.Id.isStandard, hal.Id.rawVal, bxcan.Id.rawVal]
      · simp [bxcan_to_canserial_id, hal.StandardId.new,
          bxcan.StandardId.as_raw, if_neg hr] at hsome
    | Extended e =>
      by_cases hr : e.raw ≤ 0x1FFFFFFF
      · simp only [bxcan_to_canserial_id, hal.ExtendedId.new,
          bxcan.ExtendedId.as_raw, if_pos hr] at hsome
        injection hsome with hsome
        subst hsome
        simp [hal.Id.isStandard, bxcan.Id.isStandard, hal.Id.rawVal, bxcan.Id.rawVal]
      · simp [bxcan_to_canserial_id, hal.ExtendedId.new,
          bxcan.ExtendedId.as_raw, if_neg hr] at hsome
  · cases hi with
    | Standard s =>
      by_cases hr : s.raw ≤ 0x7FF <;>
        simp [canserial_to_bxcan_id, bxcan.StandardId.new, hal.StandardId.as_raw,
          hal.Id.rawVal, hal.Id.isStandard, hr]
    | Extended e =>
      by_cases hr : e.raw ≤ 0x1FFFFFFF <;>
        simp [canserial_to_bxcan_id, bxcan.ExtendedId.new, hal.ExtendedId.as_raw,
          hal.Id.rawVal, hal.Id.isStandard, hr]
  · intro i hsome
    cases hi with
    | Standard s =>
      by_cases hr : s.raw ≤ 0x7FF
      · simp only [canserial_to_bxcan_id, bxcan.StandardId.new,
          hal.StandardId.as_raw, if_pos hr] at hsome
        injection hsome with hsome
        subst hsome
        simp [hal.Id.isStandard, bxcan.Id.isStandard, hal.Id.rawVal, bxcan.Id.rawVal]
      · simp [canserial_to_bxcan_id, bxcan.StandardId.new,
          hal.StandardId.as_raw, if_neg hr] at hsome
    | Extended e =>
      by_cases hr : e.raw ≤ 0x1FFFFFFF
      · simp only [canserial_to_bxcan_id, bxcan.ExtendedId.new,
          hal.ExtendedId.as_raw, if_pos hr] at hsome
        injection hsome with hsome
        subst hsome
        simp [hal.Id.isStandard, bxcan.Id.isStandard, hal.Id.rawVal, bxcan.Id.rawVal]
      · simp [canserial_to_bxcan_id, bxcan.ExtendedId.new,
          hal.ExtendedId.as_raw, if_neg hr] at hsome

/-- Claim C6 witness: converting the driver-side standard identifier 5
preserves tag and value. -/
theorem c6_witness :
    (hal.Id.Standard ⟨5⟩ : hal.Id).isStandard
        = (bxcan.Id.Standard ⟨5⟩ : bxcan.Id).isStandard ∧
      (hal.Id.Standard ⟨5⟩ : hal.Id).rawVal
        = (bxcan.Id.Standard ⟨5⟩ : bxcan.Id).rawVal :=
  ((c6_id_conversion_correct (bxcan.Id.Standard ⟨5⟩) (hal.Id.Extended ⟨7⟩)).1).2
    (hal.Id.Standard ⟨5⟩) (by decide)

/-- Claim C7: for a protocol-side data frame whose identifier converts,
`canserial_to_bxcan` fails exactly when the payload cannot be packed into
the driver's fixed-capacity buffer, and otherwise returns the driver data
frame built from the full payload. -/
theorem c7_payload_packing (s : CanserialFrame) (i : bxcan.Id)
    (hrem : s.is_remote_frame = false)
    (hid : canserial_to_bxcan_id s.id = some i) :
    (canserial_to_bxcan s = none ↔ bxcan.Data.new s.data = none) ∧
    ∀ d, bxcan.Data.new s.data = some d →
      canserial_to_bxcan s = some (bxcan.Frame.new_data i d) := by
  constructor
  · cases hd : bxcan.Data.new s.data with
    | none => simp [canserial_to_bxcan, hrem, hid, hd]
    | some d => simp [canserial_to_bxcan, hrem, hid, hd]
  · intro d hd
    simp [canserial_to_bxcan, hrem, hid, hd]

/-- Claim C7 witness: a two-byte standard data frame packs successfully. -/
theorem c7_witness :
    (canserial_to_bxcan ⟨false, hal.Id.Standard ⟨3⟩, 2, [170, 187]⟩ = none ↔
      bxcan.Data.new
        (⟨false, hal.Id.Standard ⟨3⟩, 2, [170, 187]⟩ : CanserialFrame).data
        = none) ∧
    ∀ d, bxcan.Data.new
        (⟨false, hal.Id.Standard ⟨3⟩, 2, [170, 187]⟩ : CanserialFrame).data
        = some d →
      canserial_to_bxcan ⟨false, hal.Id.Standard ⟨3⟩, 2, [170, 187]⟩
        = some (bxcan.Frame.new_data (bxcan.Id.Standard ⟨3⟩) d) :=
  c7_payload_packing ⟨false, hal.Id.Standard ⟨3⟩, 2, [170, 187]⟩
    (bxcan.Id.Standard ⟨3⟩) rfl (by decide)

/-- Claim C8: totality of the five conversion functions.  In this embedding
every function is a total function on well-typed inputs and signals failure
only through an absence value; no panicking construct appears in the
translation core. -/
theorem c8_totality_no_panic (bi : bxcan.Id) (hi : hal.Id)
    (b : bxcan.Frame) (s : CanserialFrame) :
    (bxcan_to_canserial_id bi = none ∨ ∃ i, bxcan_to_canserial_id bi = some i) ∧
    (canserial_to_bxcan_id hi = none ∨ ∃ i, canserial_to_bxcan_id hi = some i) ∧
    (bxcan_to_canserial b = none ∨ ∃ f, bxcan_to_canserial b = some f) ∧
    (canserial_to_bxcan s = none ∨ ∃ f, canserial_to_bxcan s = some f) ∧
    (bxcan_to_vec b = none ∨ ∃ v, bxcan_to_vec b = some v) := by
  have H : ∀ {α : Type} (o : Option α), o = none ∨ ∃ a, o = some a := by
    intro α o
    cases o with
    | none => exact Or.inl rfl
    | some a => exact Or.inr ⟨a, rfl⟩
  exact ⟨H _, H _, H _, H _, H _⟩

/-- Claim C9: whenever the translation step succeeds, `bxcan_to_vec` returns
`some`: the result is the written buffer regardless of the write's success
flag, because the write's error result is discarded. -/
theorem c9_vec_some_on_translation (b : bxcan.Frame) (f : CanserialFrame)
    (h : bxcan_to_canserial b = some f) :
    bxcan_to_vec b = some (write_to_vec 32 (f.render ++ [13])).1 := by
  simp [bxcan_to_vec, h]

/-- Claim C9 witness: instantiation at a remote standard frame with
identifier 7. -/
theorem c9_witness :
    bxcan_to_vec ⟨bxcan.Id.Standard ⟨7⟩, true, 1, none⟩
      = some (write_to_vec 32
          ((⟨true, hal.Id.Standard ⟨7⟩, 1, []⟩ : CanserialFrame).render
            ++ [13])).1 :=
  c9_vec_some_on_translation ⟨bxcan.Id.Standard ⟨7⟩, true, 1, none⟩
    ⟨true, hal.Id.Standard ⟨7⟩, 1, []⟩ (by decide)

/-- Claim C10: the slice extraction `d.get(0..d.len())` in the data-frame
branch never returns `none`, so for a payload-carrying data frame the
translation is exactly identifier conversion followed by protocol-side frame
construction. -/
theorem c10_slice_extraction_total (b : bxcan.Frame) (d : bxcan.Data)
    (hrem : b.is_remote_frame = false) (hdata : b.data = some d) :
    d.getRange 0 d.len = some d.bytes ∧
    bxcan_to_canserial b =
      (bxcan_to_canserial_id b.id).bind
        fun i => CanserialFrame.new_frame i d.bytes := by
  have hget : d.getRange 0 d.len = some d.bytes := by
    simp [bxcan.Data.getRange, bxcan.Data.len]
  refine ⟨hget, ?_⟩
  cases hc : bxcan_to_canserial_id b.id with
  | none => simp [bxcan_to_canserial, hrem, hdata, hc]
  | some i => simp [bxcan_to_canserial, hrem, hdata, hc, hget]

/-- Claim C10 witness: instantiation at a three-byte data frame. -/
theorem c10_witness :
    (⟨[9, 8, 7]⟩ : bxcan.Data).getRange 0 (⟨[9, 8, 7]⟩ : bxcan.Data).len
      = some [9, 8, 7] ∧
    bxcan_to_canserial ⟨bxcan.Id.Standard ⟨4⟩, false, 3, some ⟨[9, 8, 7]⟩⟩
      = (bxcan_to_canserial_id
          (⟨bxcan.Id.Standard ⟨4⟩, false, 3,
            some ⟨[9, 8, 7]⟩⟩ : bxcan.Frame).id).bind
          fun i => CanserialFrame.new_frame i [9, 8, 7] :=
  c10_slice_extraction_total ⟨bxcan.Id.Standard ⟨4⟩, false, 3, some ⟨[9, 8, 7]⟩⟩
    ⟨[9, 8, 7]⟩ rfl rfl
